import Mathlib

set_option maxHeartbeats 1000000
set_option linter.unusedVariables false

/-!
Verification development for the gasyncio reactor adapter
(begnac/gasyncio).  The definitions below are a shallow embedding of
src/src/gasyncio/gevents.py and src/src/gasyncio/__init__.py: the
package root is src/src/gasyncio (the only directory with an
__init__.py), so that copy of gevents.py is taken as the program.
Python dictionaries are modelled as association lists, GLib source
registrations as lists of live source ids, exceptions as an explicit
error type, and GLib-driven callback dispatch as guarded step
functions over explicit state.
-/

/-- Python exceptions that the embedded code can raise. -/
inductive PyErr where
  | keyError
  | runtimeError
  | valueError
  | nameError
  | attributeError
  | assertionError
  | importError
  | futureExc
  deriving DecidableEq, Repr

/-! ## Module namespace and package import (gevents.py top level, __init__.py) -/

/-- Names bound at module level in src/src/gasyncio/gevents.py:
the imports at lines 22-29, the conditional binding at lines 31-34
(both branches bind the same name), and the class statements.
Dunder names are omitted; no function or method body binds a module
level name. -/
def geventsModuleNames : List String :=
  ["GLib", "asyncio", "subprocess", "selectors", "warnings", "sys", "os",
   "_GLib_IOChannel_new_socket", "GAsyncIOSelector", "_GLibSubprocessTransport",
   "_GLibBasePipeTransport", "_GLibWritePipeTransport", "_GLibReadPipeTransport",
   "GAsyncIOEventLoop", "GAsyncIOEventLoopPolicy"]

/-- The names requested by src/src/gasyncio/__init__.py line 25:
from .gevents import GAsyncIOEventLoop, GAsyncIOEventLoopPolicy,
start_slave_loop, stop_slave_loop. -/
def initImportedNames : List String :=
  ["GAsyncIOEventLoop", "GAsyncIOEventLoopPolicy", "start_slave_loop", "stop_slave_loop"]

/-- Semantics of a Python from-import statement: it succeeds iff every
requested name is bound at module level in the imported module,
otherwise the import raises. -/
def fromImport (moduleNames requested : List String) : Except PyErr (List String) :=
  if requested.all (fun n => moduleNames.contains n) then .ok requested else .error .importError

/-- Name resolution for a bare global name inside gevents.py: a lookup
of a name that is not bound at module level (nor a builtin used by the
code) raises NameError at the point of evaluation. -/
def geventsGlobalBound (name : String) : Bool :=
  geventsModuleNames.contains name

/-! ## GAsyncIOSelector (gevents.py lines 36-78) -/

/-- selectors.EVENT_READ. -/
def EVENT_READ : Nat := 1
/-- selectors.EVENT_WRITE. -/
def EVENT_WRITE : Nat := 2
/-- GLib.IOCondition.IN. -/
def G_IO_IN : Nat := 1
/-- GLib.IOCondition.OUT. -/
def G_IO_OUT : Nat := 4
/-- GLib.IOCondition.ERR. -/
def G_IO_ERR : Nat := 8
/-- GLib.IOCondition.HUP. -/
def G_IO_HUP : Nat := 16

/-- GAsyncIOSelector._events_to_io_condition (lines 41-45): the Python
code tests truthiness of events & EVENT_READ and events & EVENT_WRITE. -/
def eventsToIoCondition (events : Nat) : Nat :=
  (if events &&& EVENT_READ ≠ 0 then G_IO_IN else 0) |||
  (if events &&& EVENT_WRITE ≠ 0 then G_IO_OUT else 0)

/-- GAsyncIOSelector._io_condition_to_events (lines 47-51). -/
def ioConditionToEvents (condition : Nat) : Nat :=
  (if condition &&& G_IO_IN ≠ 0 then EVENT_READ else 0) |||
  (if condition &&& G_IO_OUT ≠ 0 then EVENT_WRITE else 0)

/-- selectors.SelectorKey as used by the code: fileobj is identified by
its descriptor, and key.data is the (handle_in, handle_out) pair stored
by BaseSelectorEventLoop; the two handles are identified by ids. -/
structure SelectorKey where
  fd : Nat
  events : Nat
  dataIn : Nat
  dataOut : Nat
  deriving DecidableEq, Repr

/-- State of a GAsyncIOSelector: _fd_to_key from the
selectors._BaseSelectorImpl base class (a dict keyed on fd) and
_sources (line 39), a dict fd -> GLib source id. -/
structure SelectorState where
  fdToKey : List (Nat × SelectorKey)
  sources : List (Nat × Nat)
  deriving DecidableEq, Repr

/-- The GLib main context's view of io watches: a fresh-id counter and
the live watch sources (source id paired with the watched fd). -/
structure GLibHost where
  nextId : Nat
  watches : List (Nat × Nat)
  deriving DecidableEq, Repr

/-- selectors._BaseSelectorImpl.register: raises ValueError on an empty
or out-of-range event set, raises KeyError if the descriptor already
has a key, otherwise stores and returns the new key. -/
def baseSelectorRegister (s : SelectorState) (fd events dIn dOut : Nat) :
    SelectorState × Except PyErr SelectorKey :=
  if events = 0 ∨ events &&& 3 ≠ events then (s, .error .valueError)
  else if (s.fdToKey.lookup fd).isSome then (s, .error .keyError)
  else
    let key : SelectorKey := ⟨fd, events, dIn, dOut⟩
    ({ s with fdToKey := (fd, key) :: s.fdToKey }, .ok key)

/-- GAsyncIOSelector.register (lines 53-61): first the base-class
register (which fails fast on a duplicate descriptor), then a
belt-and-suspenders RuntimeError check against _sources, then creation
of an IOChannel (no observable state here) and GLib.io_add_watch. -/
def selectorRegister (s : SelectorState) (h : GLibHost) (fd events dIn dOut : Nat) :
    SelectorState × GLibHost × Except PyErr SelectorKey :=
  match baseSelectorRegister s fd events dIn dOut with
  | (s1, .error e) => (s1, h, .error e)
  | (s1, .ok key) =>
    if (s1.sources.lookup key.fd).isSome then (s1, h, .error .runtimeError)
    else
      let sid := h.nextId
      ({ s1 with sources := (key.fd, sid) :: s1.sources },
       { nextId := h.nextId + 1, watches := (sid, key.fd) :: h.watches },
       .ok key)

/-- GAsyncIOSelector.unregister (lines 63-67): the base-class
unregister pops the key (raising KeyError when the descriptor is not
registered), then _sources.pop and GLib.source_remove. -/
def selectorUnregister (s : SelectorState) (h : GLibHost) (fd : Nat) :
    SelectorState × GLibHost × Except PyErr SelectorKey :=
  match s.fdToKey.lookup fd with
  | none => (s, h, .error .keyError)
  | some key =>
    let s1 : SelectorState := { s with fdToKey := s.fdToKey.filter (fun p => p.1 != fd) }
    match s1.sources.lookup fd with
    | none => (s1, h, .error .keyError)
    | some sid =>
      ({ s1 with sources := s1.sources.filter (fun p => p.1 != fd) },
       { h with watches := h.watches.filter (fun p => p.1 != sid) },
       .ok key)

/-- GAsyncIOSelector._channel_watch_cb (lines 69-75): runs key.data's
read handle when the condition has IN set, then the write handle when
the condition has OUT set, and returns True.  The returned list is the
log of handle ids run, in order. -/
def channelWatchCb (condition : Nat) (key : SelectorKey) : List Nat × Bool :=
  ((if condition &&& G_IO_IN ≠ 0 then [key.dataIn] else []) ++
   (if condition &&& G_IO_OUT ≠ 0 then [key.dataOut] else []),
   true)

/-- GAsyncIOSelector.select (lines 77-78): returns the empty tuple for
every timeout, never reporting readiness synchronously. -/
def selectorSelect (s : SelectorState) (timeout : Option Int) :
    List (SelectorKey × Nat) :=
  []

/-- Claim C7: registering an already-registered descriptor fails with
the registration-conflict error (KeyError from the base register),
leaving selector and host watches unchanged, so no second live host
watch for the descriptor exists; unregistering an unregistered
descriptor fails with the not-registered KeyError and changes
nothing. -/
theorem c7_selector_registration (s : SelectorState) (h : GLibHost)
    (fd events dIn dOut : Nat)
    (hvalid : events = 1 ∨ events = 2 ∨ events = 3) :
    ((s.fdToKey.lookup fd).isSome →
      selectorRegister s h fd events dIn dOut = (s, h, .error .keyError)) ∧
    ((s.fdToKey.lookup fd).isNone →
      selectorUnregister s h fd = (s, h, .error .keyError)) := by
  constructor
  · intro hreg
    rcases hvalid with rfl | rfl | rfl <;>
      simp +decide [selectorRegister, baseSelectorRegister, hreg]
  · intro hnone
    rw [Option.isNone_iff_eq_none] at hnone
    simp [selectorUnregister, hnone]

/-- Witness for C7 at a concrete selector state with descriptor 5
registered (one live watch, source id 1) and descriptor 9 absent. -/
theorem c7_selector_registration_witness :
    selectorRegister ⟨[(5, ⟨5, 1, 0, 0⟩)], [(5, 1)]⟩ ⟨2, [(1, 5)]⟩ 5 1 0 0 =
      (⟨[(5, ⟨5, 1, 0, 0⟩)], [(5, 1)]⟩, ⟨2, [(1, 5)]⟩, .error .keyError) ∧
    selectorUnregister ⟨[(5, ⟨5, 1, 0, 0⟩)], [(5, 1)]⟩ ⟨2, [(1, 5)]⟩ 9 =
      (⟨[(5, ⟨5, 1, 0, 0⟩)], [(5, 1)]⟩, ⟨2, [(1, 5)]⟩, .error .keyError) :=
  ⟨(c7_selector_registration ⟨[(5, ⟨5, 1, 0, 0⟩)], [(5, 1)]⟩ ⟨2, [(1, 5)]⟩ 5 1 0 0
      (Or.inl rfl)).1 (by decide),
   (c7_selector_registration ⟨[(5, ⟨5, 1, 0, 0⟩)], [(5, 1)]⟩ ⟨2, [(1, 5)]⟩ 9 1 0 0
      (Or.inl rfl)).2 (by decide)⟩

/-- Claim C9: select returns the empty collection for every selector
state and timeout, and on a host-delivered readiness event the read
handle is run iff the IN condition is set and the write handle is run
iff the OUT condition is set. -/
theorem c9_select_and_dispatch (s : SelectorState) (timeout : Option Int)
    (condition : Nat) (key : SelectorKey)
    (hne : key.dataIn ≠ key.dataOut) :
    selectorSelect s timeout = [] ∧
    (key.dataIn ∈ (channelWatchCb condition key).1 ↔ condition &&& G_IO_IN ≠ 0) ∧
    (key.dataOut ∈ (channelWatchCb condition key).1 ↔ condition &&& G_IO_OUT ≠ 0) := by
  refine ⟨rfl, ?_, ?_⟩ <;>
  · unfold channelWatchCb
    by_cases h1 : condition &&& G_IO_IN ≠ 0 <;>
      by_cases h2 : condition &&& G_IO_OUT ≠ 0 <;>
        simp [h1, h2, hne, Ne.symm hne]

/-- Witness for C9 at a both-ready condition bitmask (IN and OUT set),
with distinct read and write handle ids 10 and 11. -/
theorem c9_select_and_dispatch_witness :
    selectorSelect ⟨[], []⟩ none = [] ∧
    (10 ∈ (channelWatchCb 5 ⟨3, 3, 10, 11⟩).1 ↔ (5 : Nat) &&& G_IO_IN ≠ 0) ∧
    (11 ∈ (channelWatchCb 5 ⟨3, 3, 10, 11⟩).1 ↔ (5 : Nat) &&& G_IO_OUT ≠ 0) :=
  c9_select_and_dispatch ⟨[], []⟩ none 5 ⟨3, 3, 10, 11⟩ (by decide)

/-- Claim C10: importing the gasyncio package executes the from-import
in __init__.py, which fails because start_slave_loop and
stop_slave_loop are not module-level names of gevents (they exist only
as methods of GAsyncIOEventLoop). -/
theorem c10_package_import_fails :
    fromImport geventsModuleNames initImportedNames = .error .importError ∧
    geventsModuleNames.contains "start_slave_loop" = false ∧
    geventsModuleNames.contains "stop_slave_loop" = false := by
  refine ⟨?_, rfl, rfl⟩
  rfl

/-! ## Timer bridge: call_at, _timer_handle_cancelled, _timeout_cb
(gevents.py lines 441-463) together with asyncio.events.TimerHandle's
cancel protocol (cancel is guarded by the _cancelled flag; it first
calls loop._timer_handle_cancelled, then clears the callback). -/

/-- The mutable part of an asyncio.events.TimerHandle that the timer
bridge reads and writes: _cancelled, whether _callback is still set
(Handle.cancel sets it to None), and _scheduled, which gasyncio reuses
to hold the GLib source id (a positive int) or False (none here). -/
structure TimerHandleState where
  cancelled : Bool
  hasCallback : Bool
  scheduled : Option Nat
  deriving DecidableEq, Repr

/-- Combined state of one timer, the GLib timeout sources backing it
(source id paired with the delay in ms that was passed to
GLib.timeout_add), and the number of times the handle's callback ran. -/
structure TimerSys where
  hostTimers : List (Nat × Int)
  nextId : Nat
  timer : TimerHandleState
  fired : Nat
  closed : Bool
  deriving DecidableEq, Repr

/-- GAsyncIOEventLoop.call_at (lines 441-453), debug mode off: checks
the loop is not closed, builds the TimerHandle, computes
delay = (when - time()) * 1000, clamps a negative delay to zero, and
registers a GLib timeout source whose id is stored in
timer._scheduled. -/
def callAt (closed : Bool) (whenT now : Int) : Except PyErr TimerSys :=
  if closed then .error .runtimeError
  else
    let delay0 := (whenT - now) * 1000
    let delay := if delay0 < 0 then 0 else delay0
    .ok { hostTimers := [(1, delay)], nextId := 2,
          timer := { cancelled := false, hasCallback := true, scheduled := some 1 },
          fired := 0, closed := closed }

/-- GAsyncIOEventLoop._timeout_cb (lines 460-463): timer._run() runs
the callback when it is still set (a cancelled handle has callback
None, and Handle._run swallows the resulting error, running nothing),
then timer._scheduled = False, then returns False so GLib destroys the
source. -/
def timeoutCb (s : TimerSys) : TimerSys × Bool :=
  ({ s with fired := s.fired + (if s.timer.hasCallback then 1 else 0),
            timer := { s.timer with scheduled := none } },
   false)

/-- Dispatch by the GLib main loop of a live timeout source: GLib only
invokes sources it still holds; the source's callback is
_timeout_cb(timer), and a False return destroys the source. -/
def timerHostFire (s : TimerSys) : TimerSys :=
  match s.hostTimers with
  | [] => s
  | (i, _) :: _ =>
    let (s1, again) := timeoutCb s
    if again then s1
    else { s1 with hostTimers := s1.hostTimers.filter (fun p => p.1 != i) }

/-- GAsyncIOEventLoop._timer_handle_cancelled (lines 455-458): if
timer._scheduled is truthy (a live source id), GLib.source_remove it;
then timer._scheduled = False. -/
def timerHandleCancelled (s : TimerSys) : TimerSys :=
  let s1 := match s.timer.scheduled with
    | some i => { s with hostTimers := s.hostTimers.filter (fun p => p.1 != i) }
    | none => s
  { s1 with timer := { s1.timer with scheduled := none } }

/-- asyncio.events.TimerHandle.cancel: when not yet cancelled, calls
loop._timer_handle_cancelled(self) and then Handle.cancel, which sets
_cancelled and drops the callback; when already cancelled, a no-op. -/
def cancelTimer (s : TimerSys) : TimerSys :=
  if s.timer.cancelled then s
  else
    let s1 := timerHandleCancelled s
    { s1 with timer := { s1.timer with cancelled := true, hasCallback := false } }

/-- Events that can happen to a scheduled timer. -/
inductive TimerOp where
  | hostFire
  | cancel
  deriving DecidableEq, Repr

/-- One timer event. -/
def timerStep : TimerOp → TimerSys → TimerSys
  | .hostFire, s => timerHostFire s
  | .cancel, s => cancelTimer s

/-- Run a sequence of timer events. -/
def runTimerOps (ops : List TimerOp) (s : TimerSys) : TimerSys :=
  match ops with
  | [] => s
  | op :: rest => runTimerOps rest (timerStep op s)

/-- Invariant tying the timer handle to its GLib source. -/
def TimerInv (s : TimerSys) : Prop :=
  s.fired ≤ 1 ∧
  (s.hostTimers = [] ∨
    ∃ d, s.hostTimers = [(1, d)] ∧ s.timer.scheduled = some 1 ∧ s.fired = 0 ∧
      s.timer.cancelled = false)

theorem cancelTimer_of_cancelled {s : TimerSys} (hc : s.timer.cancelled = true) :
    cancelTimer s = s := by
  unfold cancelTimer
  rw [if_pos hc]

theorem cancelTimer_fired (s : TimerSys) : (cancelTimer s).fired = s.fired := by
  by_cases hc : s.timer.cancelled = true
  · rw [cancelTimer_of_cancelled hc]
  · unfold cancelTimer timerHandleCancelled
    rw [if_neg hc]
    cases hsch : s.timer.scheduled <;> simp [hsch]

theorem cancelTimer_idem (s : TimerSys) :
    cancelTimer (cancelTimer s) = cancelTimer s := by
  by_cases hc : s.timer.cancelled = true
  · rw [cancelTimer_of_cancelled hc, cancelTimer_of_cancelled hc]
  · apply cancelTimer_of_cancelled
    unfold cancelTimer timerHandleCancelled
    rw [if_neg hc]

theorem cancelTimer_hostTimers_empty {s : TimerSys} (hemp : s.hostTimers = []) :
    (cancelTimer s).hostTimers = [] := by
  by_cases hc : s.timer.cancelled = true
  · rw [cancelTimer_of_cancelled hc]; exact hemp
  · unfold cancelTimer timerHandleCancelled
    rw [if_neg hc]
    cases hsch : s.timer.scheduled <;> simp [hsch, hemp]

theorem timerInv_hostFire {s : TimerSys} (hs : TimerInv s) :
    TimerInv (timerHostFire s) := by
  obtain ⟨hf, hrest⟩ := hs
  rcases hrest with hemp | ⟨d, hlist, hsch, hfired, hcan⟩
  · have hstep : timerHostFire s = s := by
      simp [timerHostFire, hemp]
    rw [hstep]
    exact ⟨hf, Or.inl hemp⟩
  · constructor
    · have hfir : (timerHostFire s).fired =
          s.fired + (if s.timer.hasCallback then 1 else 0) := by
        simp +decide [timerHostFire, hlist, timeoutCb]
      rw [hfir, hfired]
      cases hcb : s.timer.hasCallback <;> simp
    · left
      simp +decide [timerHostFire, hlist, timeoutCb]

theorem timerInv_cancel {s : TimerSys} (hs : TimerInv s) :
    TimerInv (cancelTimer s) := by
  obtain ⟨hf, hrest⟩ := hs
  by_cases hc : s.timer.cancelled = true
  · rw [cancelTimer_of_cancelled hc]
    exact ⟨hf, hrest⟩
  · refine ⟨by rw [cancelTimer_fired]; exact hf, Or.inl ?_⟩
    rcases hrest with hemp | ⟨d, hlist, hsch, hfired, hcan⟩
    · exact cancelTimer_hostTimers_empty hemp
    · unfold cancelTimer timerHandleCancelled
      rw [if_neg hc, hsch, hlist]
      simp

theorem timerInv_run (ops : List TimerOp) {s : TimerSys} (hs : TimerInv s) :
    TimerInv (runTimerOps ops s) := by
  induction ops generalizing s with
  | nil => exact hs
  | cons op rest ih =>
    show TimerInv (runTimerOps rest (timerStep op s))
    cases op
    · exact ih (timerInv_hostFire hs)
    · exact ih (timerInv_cancel hs)

theorem runTimerOps_fired_of_empty (ops : List TimerOp) (s : TimerSys)
    (hemp : s.hostTimers = []) :
    (runTimerOps ops s).fired = s.fired ∧ (runTimerOps ops s).hostTimers = [] := by
  induction ops generalizing s with
  | nil => exact ⟨rfl, hemp⟩
  | cons op rest ih =>
    cases op
    · have hstep : timerHostFire s = s := by
        simp [timerHostFire, hemp]
      show (runTimerOps rest (timerHostFire s)).fired = s.fired ∧
        (runTimerOps rest (timerHostFire s)).hostTimers = []
      rw [hstep]
      exact ih s hemp
    · show (runTimerOps rest (cancelTimer s)).fired = s.fired ∧
        (runTimerOps rest (cancelTimer s)).hostTimers = []
      obtain ⟨ha, hb⟩ := ih (cancelTimer s) (cancelTimer_hostTimers_empty hemp)
      exact ⟨ha.trans (cancelTimer_fired s), hb⟩

/-- Claim C6: for every state reachable from a call_at registration by
host firings and cancellations, the callback has run at most once;
cancelling never changes the fire count and a second cancel is exactly
a no-op (so cancelling after the timer fired, or twice, does nothing);
and cancelling while not yet fired guarantees the callback never runs
in any continuation. -/
theorem c6_timer_lifecycle (closed : Bool) (whenT now : Int) (s0 : TimerSys)
    (h0 : callAt closed whenT now = .ok s0) (ops : List TimerOp) :
    (runTimerOps ops s0).fired ≤ 1 ∧
    (cancelTimer (runTimerOps ops s0)).fired = (runTimerOps ops s0).fired ∧
    cancelTimer (cancelTimer (runTimerOps ops s0)) = cancelTimer (runTimerOps ops s0) ∧
    ((runTimerOps ops s0).fired = 0 →
      ∀ more, (runTimerOps more (cancelTimer (runTimerOps ops s0))).fired = 0) := by
  have hinv0 : TimerInv s0 := by
    unfold callAt at h0
    split at h0
    · exact absurd h0 (by simp)
    · injection h0 with h0
      subst h0
      exact ⟨by simp, Or.inr ⟨_, rfl, rfl, rfl, rfl⟩⟩
  have hinv := timerInv_run ops hinv0
  refine ⟨hinv.1, cancelTimer_fired _, cancelTimer_idem _, ?_⟩
  intro hz more
  have hemp : (cancelTimer (runTimerOps ops s0)).hostTimers = [] := by
    rcases hinv.2 with hemp | ⟨d, hlist, hsch, hfired0, hcan⟩
    · exact cancelTimer_hostTimers_empty hemp
    · unfold cancelTimer timerHandleCancelled
      rw [if_neg (by simp [hcan]), hsch, hlist]
      simp
  have hrun := runTimerOps_fired_of_empty more (cancelTimer (runTimerOps ops s0)) hemp
  rw [hrun.1, cancelTimer_fired]
  exact hz

/-- Witness for C6: the concrete timer system produced by call_at at
deadline 0 and time 0; fire it once, and separately cancel the fresh
timer and only then let the host try to fire. -/
theorem c6_timer_lifecycle_witness :
    callAt false 0 0 = .ok ⟨[(1, 0)], 2, ⟨false, true, some 1⟩, 0, false⟩ ∧
    (runTimerOps [TimerOp.hostFire] ⟨[(1, 0)], 2, ⟨false, true, some 1⟩, 0, false⟩).fired ≤ 1 ∧
    (runTimerOps [TimerOp.hostFire]
      (cancelTimer (runTimerOps [] ⟨[(1, 0)], 2, ⟨false, true, some 1⟩, 0, false⟩))).fired = 0 := by
  refine ⟨by rfl, ?_, ?_⟩
  · exact (c6_timer_lifecycle false 0 0 _ (by rfl) [TimerOp.hostFire]).1
  · exact (c6_timer_lifecycle false 0 0 _ (by rfl) []).2.2.2 (by rfl) [TimerOp.hostFire]

/-- Claim C5: a deadline already in the past is still scheduled
successfully: call_at clamps the negative computed delay to zero, so
the GLib timeout source is registered with delay 0 and the handle
carries its source id. -/
theorem c5_call_at_clamps_negative_delay (whenT now : Int) (h : whenT < now) :
    callAt false whenT now =
      .ok { hostTimers := [(1, 0)], nextId := 2,
            timer := { cancelled := false, hasCallback := true, scheduled := some 1 },
            fired := 0, closed := false } := by
  have hneg : (whenT - now) * 1000 < 0 :=
    mul_neg_of_neg_of_pos (by omega) (by norm_num)
  simp [callAt, hneg]

/-- Witness for C5 at deadline 0 with current time 5. -/
theorem c5_call_at_clamps_negative_delay_witness :
    (0 : Int) < 5 ∧
    callAt false 0 5 =
      .ok { hostTimers := [(1, 0)], nextId := 2,
            timer := { cancelled := false, hasCallback := true, scheduled := some 1 },
            fired := 0, closed := false } :=
  ⟨by decide, c5_call_at_clamps_negative_delay 0 5 (by decide)⟩

/-! ## Scheduler pump: _call_soon, _add_callback, _schedule_giteration,
_giterate (gevents.py lines 465-486), with BaseEventLoop._run_once
modelled as: pop every currently ready handle, run it (each run may
enqueue new handles, whose pump wake-up goes through
_schedule_giteration and is a no-op while _giteration is still set). -/

/-- State of the pump: the _giteration attribute (a GLib source id or
None), the length of the guest scheduler's _ready queue, the live GLib
sources registered for the pump, and a fresh-id counter. -/
structure PumpState where
  giteration : Option Nat
  ready : Nat
  hostSources : List Nat
  nextId : Nat
  deriving DecidableEq, Repr

/-- GAsyncIOEventLoop._schedule_giteration (lines 475-478): a no-op if
_giteration is already set, otherwise GLib.timeout_add(0, _giterate)
with the new source id stored in _giteration. -/
def scheduleGiteration (s : PumpState) : PumpState :=
  match s.giteration with
  | some _ => s
  | none =>
    { s with giteration := some s.nextId,
             hostSources := s.nextId :: s.hostSources,
             nextId := s.nextId + 1 }

/-- GAsyncIOEventLoop._call_soon (lines 465-468): the base class
appends the new handle to _ready, then _schedule_giteration. -/
def pumpCallSoon (s : PumpState) : PumpState :=
  scheduleGiteration { s with ready := s.ready + 1 }

/-- GAsyncIOEventLoop._add_callback (lines 470-473): the base class
appends the handle to _ready, then _schedule_giteration. -/
def pumpAddCallback (s : PumpState) : PumpState :=
  scheduleGiteration { s with ready := s.ready + 1 }

/-- The callbacks run by one _run_once iteration enqueueing n new
handles, each through call_soon (so each enqueue also tries to wake the
pump). -/
def enqueueMany : Nat → PumpState → PumpState
  | 0, s => s
  | n + 1, s => enqueueMany n (pumpCallSoon s)

/-- BaseEventLoop._run_once as it behaves on this loop: the selector
select returns (), no _scheduled heap is used (call_at bypasses it), so
the iteration pops all len(_ready) handles and runs them; newWork is
the number of handles those callbacks enqueue. -/
def runOnce (s : PumpState) (newWork : Nat) : PumpState :=
  enqueueMany newWork { s with ready := 0 }

/-- GAsyncIOEventLoop._giterate (lines 480-486): one _run_once, then
return True (keep the source) if _ready is non-empty, else clear
_giteration and return False (the host destroys the source). -/
def giterate (s : PumpState) (newWork : Nat) : PumpState × Bool :=
  let s1 := runOnce s newWork
  if s1.ready ≠ 0 then (s1, true)
  else ({ s1 with giteration := none }, false)

/-- Dispatch by the GLib main loop of the pump's live timeout source:
GLib invokes _giterate only while it still holds the source; a False
return destroys it. -/
def fireGiteration (s : PumpState) (newWork : Nat) : PumpState :=
  match s.giteration with
  | some i =>
    if s.hostSources.contains i then
      let (s1, again) := giterate s newWork
      if again then s1
      else { s1 with hostSources := s1.hostSources.filter (fun j => j != i) }
    else s
  | none => s

/-- Events that can reach the pump: the __init__ idle source (or any
caller) invoking _schedule_giteration, a callback submission through
_call_soon or _add_callback, and a host dispatch of the pump source in
which the guest iteration enqueues newWork more handles. -/
inductive PumpOp where
  | schedule
  | callSoonOp
  | addCallbackOp
  | fire (newWork : Nat)
  deriving DecidableEq, Repr

/-- One pump event. -/
def pumpStep : PumpOp → PumpState → PumpState
  | .schedule, s => scheduleGiteration s
  | .callSoonOp, s => pumpCallSoon s
  | .addCallbackOp, s => pumpAddCallback s
  | .fire k, s => fireGiteration s k

/-- The loop state right after GAsyncIOEventLoop.__init__
(lines 373-377): _giteration is None, nothing is ready, no pump source
is registered yet. -/
def pumpStart : PumpState :=
  { giteration := none, ready := 0, hostSources := [], nextId := 1 }

/-- Run the pump from __init__ through a sequence of events. -/
def runPump : List PumpOp → PumpState → PumpState
  | [], s => s
  | op :: rest, s => runPump rest (pumpStep op s)

/-- Invariant: the live pump sources are exactly the one recorded in
_giteration (in particular there is never more than one). -/
def PumpInv (s : PumpState) : Prop :=
  (∀ i, s.giteration = some i → s.hostSources = [i]) ∧
  (s.giteration = none → s.hostSources = [])

theorem scheduleGiteration_of_some {s : PumpState} {i : Nat}
    (h : s.giteration = some i) : scheduleGiteration s = s := by
  simp [scheduleGiteration, h]

theorem enqueueMany_of_some (n : Nat) :
    ∀ (s : PumpState) (i : Nat), s.giteration = some i →
      enqueueMany n s = { s with ready := s.ready + n } := by
  induction n with
  | zero => intro s i h; rfl
  | succ m ih =>
    intro s i h
    show enqueueMany m (pumpCallSoon s) = _
    have hcs : pumpCallSoon s = { s with ready := s.ready + 1 } := by
      unfold pumpCallSoon
      exact scheduleGiteration_of_some h
    rw [hcs, ih { s with ready := s.ready + 1 } i h]
    simp
    omega

theorem fireGiteration_eq {s : PumpState} {i : Nat} (k : Nat)
    (hg : s.giteration = some i) (hinv : s.hostSources = [i]) :
    fireGiteration s k =
      if k = 0 then
        { s with ready := 0, giteration := none,
                 hostSources := s.hostSources.filter (fun j => j != i) }
      else { s with ready := k } := by
  have hcont : s.hostSources.contains i = true := by rw [hinv]; simp
  have hrun : runOnce s k = { s with ready := k } := by
    unfold runOnce
    rw [enqueueMany_of_some k { s with ready := 0 } i (by simpa using hg)]
    simp
  unfold fireGiteration giterate
  rw [hg]
  dsimp only
  rw [if_pos hcont, hrun]
  by_cases hk : k = 0
  · subst hk
    simp
  · simp [hk, hg]

theorem pumpInv_schedule {s : PumpState} (hs : PumpInv s) :
    PumpInv (scheduleGiteration s) := by
  cases hg : s.giteration with
  | some i => rw [scheduleGiteration_of_some hg]; exact hs
  | none =>
    have hemp : s.hostSources = [] := hs.2 hg
    have hsch : scheduleGiteration s =
        { s with giteration := some s.nextId,
                 hostSources := s.nextId :: s.hostSources,
                 nextId := s.nextId + 1 } := by
      simp [scheduleGiteration, hg]
    rw [hsch]
    refine ⟨fun j hj => ?_, fun hj => absurd hj (by simp)⟩
    have hij : s.nextId = j := Option.some.inj hj
    show s.nextId :: s.hostSources = [j]
    rw [hij, hemp]

theorem pumpInv_callSoon {s : PumpState} (hs : PumpInv s) :
    PumpInv (pumpCallSoon s) := by
  unfold pumpCallSoon
  exact pumpInv_schedule ⟨fun i hi => hs.1 i hi, fun hn => hs.2 hn⟩

theorem pumpInv_fire {s : PumpState} (k : Nat) (hs : PumpInv s) :
    PumpInv (fireGiteration s k) := by
  cases hg : s.giteration with
  | none =>
    have hfe : fireGiteration s k = s := by
      simp [fireGiteration, hg]
    rw [hfe]
    exact hs
  | some i =>
    rw [fireGiteration_eq k hg (hs.1 i hg)]
    by_cases hk : k = 0
    · subst hk
      rw [if_pos rfl]
      refine ⟨fun j hj => absurd hj (by simp), fun hj => ?_⟩
      show s.hostSources.filter (fun j => j != i) = []
      rw [hs.1 i hg]
      simp
    · rw [if_neg hk]
      exact ⟨fun j hj => hs.1 j hj, fun hj => hs.2 hj⟩

theorem pumpInv_step (op : PumpOp) {s : PumpState} (hs : PumpInv s) :
    PumpInv (pumpStep op s) := by
  cases op
  · exact pumpInv_schedule hs
  · exact pumpInv_callSoon hs
  · exact pumpInv_callSoon hs
  · exact pumpInv_fire _ hs

theorem pumpInv_run (ops : List PumpOp) {s : PumpState} (hs : PumpInv s) :
    PumpInv (runPump ops s) := by
  induction ops generalizing s with
  | nil => exact hs
  | cons op rest ih =>
    show PumpInv (runPump rest (pumpStep op s))
    exact ih (pumpInv_step op hs)

/-- Claim C3: at every state reachable from __init__, at most one pump
source is registered with the host; _schedule_giteration is a no-op
while one is pending; a host dispatch of the live pump source leaves it
registered (rearmed) iff the guest ready queue is non-empty afterwards;
and _call_soon and _add_callback wake the pump whenever it is idle. -/
theorem c3_pump_invariant (ops : List PumpOp) (k : Nat) :
    (runPump ops pumpStart).hostSources.length ≤ 1 ∧
    ((runPump ops pumpStart).giteration.isSome →
      scheduleGiteration (runPump ops pumpStart) = runPump ops pumpStart) ∧
    ((runPump ops pumpStart).giteration = none →
      (pumpCallSoon (runPump ops pumpStart)).giteration.isSome ∧
      (pumpAddCallback (runPump ops pumpStart)).giteration.isSome) ∧
    ((runPump ops pumpStart).giteration.isSome →
      ((fireGiteration (runPump ops pumpStart) k).giteration.isSome ↔ k ≠ 0) ∧
      (fireGiteration (runPump ops pumpStart) k).ready = k) := by
  have hinv : PumpInv (runPump ops pumpStart) :=
    pumpInv_run ops ⟨fun i hi => absurd hi (by simp [pumpStart]), fun _ => rfl⟩
  refine ⟨?_, ?_, ?_, ?_⟩
  · cases hg : (runPump ops pumpStart).giteration with
    | some i => rw [hinv.1 i hg]; simp
    | none => rw [hinv.2 hg]; simp
  · intro hsome
    obtain ⟨i, hg⟩ := Option.isSome_iff_exists.mp hsome
    exact scheduleGiteration_of_some hg
  · intro hnone
    refine ⟨?_, ?_⟩
    · simp [pumpCallSoon, scheduleGiteration, hnone]
    · simp [pumpAddCallback, scheduleGiteration, hnone]
  · intro hsome
    obtain ⟨i, hg⟩ := Option.isSome_iff_exists.mp hsome
    rw [fireGiteration_eq k hg (hinv.1 i hg)]
    by_cases hk : k = 0
    · subst hk
      rw [if_pos rfl]
      simp
    · rw [if_neg hk]
      simp [hk, hg]

/-- Witness for C3: after the __init__ idle source has called
_schedule_giteration once, the pump is pending, so the hypotheses of
the claim's conditional parts hold; and from the idle initial state a
call_soon wakes the pump. -/
theorem c3_pump_invariant_witness :
    (runPump [PumpOp.schedule] pumpStart).hostSources.length ≤ 1 ∧
    ((runPump [PumpOp.schedule] pumpStart).giteration.isSome = true) ∧
    scheduleGiteration (runPump [PumpOp.schedule] pumpStart) =
      runPump [PumpOp.schedule] pumpStart ∧
    ((fireGiteration (runPump [PumpOp.schedule] pumpStart) 2).giteration.isSome ↔
      (2 : Nat) ≠ 0) ∧
    (runPump [] pumpStart).giteration = none ∧
    (pumpCallSoon (runPump [] pumpStart)).giteration.isSome := by
  refine ⟨(c3_pump_invariant [PumpOp.schedule] 2).1, by decide, ?_, ?_, by decide, ?_⟩
  · exact (c3_pump_invariant [PumpOp.schedule] 2).2.1 (by decide)
  · exact ((c3_pump_invariant [PumpOp.schedule] 2).2.2.2 (by decide)).1
  · exact ((c3_pump_invariant [] 2).2.2.1 (by decide)).1

/-! ## Slave lifecycle: is_running, start_slave_loop, stop_slave_loop,
run_without_glib_until_complete (gevents.py lines 379-420).
runningLoopIsSelf models whether asyncio's ambient running-loop slot
(asyncio.events._set_running_loop / _get_running_loop) holds this
loop. -/

/-- Lifecycle-relevant state of one GAsyncIOEventLoop together with the
ambient running-loop registration. -/
structure SlaveState where
  runningLoopIsSelf : Bool
  isSlave : Bool
  closed : Bool
  deriving DecidableEq, Repr

/-- GAsyncIOEventLoop.is_running (lines 379-380): returns _is_slave. -/
def isRunning (s : SlaveState) : Bool :=
  s.isSlave

/-- GAsyncIOEventLoop.start_slave_loop (lines 382-396): _check_closed,
then _check_running (which raises if self.is_running() or if an
ambient running loop is set), then hook bookkeeping (origin tracking
and asyncgen hooks, not modelled), then _set_running_loop(self) and
_is_slave = True. -/
def startSlaveLoop (s : SlaveState) : SlaveState × Except PyErr Unit :=
  if s.closed then (s, .error .runtimeError)
  else if isRunning s then (s, .error .runtimeError)
  else if s.runningLoopIsSelf then (s, .error .runtimeError)
  else ({ s with runningLoopIsSelf := true, isSlave := true }, .ok ())

/-- GAsyncIOEventLoop.stop_slave_loop (lines 398-407): raises unless
_is_slave, then clears _is_slave, unsets the ambient running loop and
restores the saved hooks (not modelled). -/
def stopSlaveLoop (s : SlaveState) : SlaveState × Except PyErr Unit :=
  if s.isSlave then
    ({ s with isSlave := false, runningLoopIsSelf := false }, .ok ())
  else (s, .error .runtimeError)

/-- GAsyncIOEventLoop.run_without_glib_until_complete (lines 409-420):
when the ambient running loop is this loop, it saves _is_slave, clears
it, unsets the ambient running loop, and calls the blocking
run_until_complete; there is no try/finally, so when that call raises
(futureRaises) the two restoring lines after it never execute and the
exception propagates. -/
def runWithoutGlibUntilComplete (s : SlaveState) (futureRaises : Bool) :
    SlaveState × Except PyErr Unit :=
  if s.runningLoopIsSelf then
    let saved := s.isSlave
    let s1 : SlaveState := { s with isSlave := false, runningLoopIsSelf := false }
    if futureRaises then (s1, .error .futureExc)
    else ({ s1 with runningLoopIsSelf := true, isSlave := saved }, .ok ())
  else (s, .ok ())

/-- Counterexample to claim C1 as stated: for a slave loop that is the
ambient running loop and a future whose blocking wait raises,
run_without_glib_until_complete exits without re-registering the loop
as the ambient running loop and without restoring the SLAVE flag. -/
theorem c1_restore_counterexample :
    ¬ ((runWithoutGlibUntilComplete ⟨true, true, false⟩ true).1.runningLoopIsSelf = true ∧
       (runWithoutGlibUntilComplete ⟨true, true, false⟩ true).1.isSlave = true) := by
  decide

/-- Claim C1 as amended: when the loop is the ambient running loop, the
normal-return path of run_without_glib_until_complete re-registers the
loop and restores the SLAVE flag to its prior value, but when the inner
run_until_complete raises, the exception propagates with the ambient
running loop left unset and the SLAVE flag left False. -/
theorem c1_restore_amended (s : SlaveState) (h : s.runningLoopIsSelf = true) :
    (runWithoutGlibUntilComplete s false).1.runningLoopIsSelf = true ∧
    (runWithoutGlibUntilComplete s false).1.isSlave = s.isSlave ∧
    (runWithoutGlibUntilComplete s false).2 = .ok () ∧
    (runWithoutGlibUntilComplete s true).1.runningLoopIsSelf = false ∧
    (runWithoutGlibUntilComplete s true).1.isSlave = false ∧
    (runWithoutGlibUntilComplete s true).2 = .error .futureExc := by
  simp [runWithoutGlibUntilComplete, h]

/-- Witness for C1's amended claim at a slave loop registered as the
ambient running loop. -/
theorem c1_restore_amended_witness :
    (⟨true, true, false⟩ : SlaveState).runningLoopIsSelf = true ∧
    (runWithoutGlibUntilComplete ⟨true, true, false⟩ false).1.isSlave = true ∧
    (runWithoutGlibUntilComplete ⟨true, true, false⟩ true).1.isSlave = false :=
  ⟨rfl,
   (c1_restore_amended ⟨true, true, false⟩ rfl).2.1,
   (c1_restore_amended ⟨true, true, false⟩ rfl).2.2.2.2.1⟩

/-- Claim C2 evaluated on the code: start_slave_loop on a fresh loop
succeeds and registers the loop as the ambient running loop, but
is_running then returns True (is_running returns _is_slave, which
start_slave_loop just set), contradicting the claim and the method's
own docstring, which promise False; stop_slave_loop then brings
is_running back to False. -/
theorem c2_is_running_while_slave :
    (startSlaveLoop ⟨false, false, false⟩).2 = .ok () ∧
    (startSlaveLoop ⟨false, false, false⟩).1.runningLoopIsSelf = true ∧
    isRunning (startSlaveLoop ⟨false, false, false⟩).1 = true ∧
    isRunning (stopSlaveLoop (startSlaveLoop ⟨false, false, false⟩).1).1 = false :=
  ⟨rfl, rfl, rfl, rfl⟩

/-! ## Write pipe transport: _GLibBasePipeTransport (lines 135-223) and
_GLibWritePipeTransport (lines 226-316).  The result of
IOChannel.write_chars is environment-chosen (WriteOutcome); the
debug-off path of _fatal_error is modelled (its logging and
call_exception_handler have no transport-visible state); the
_maybe_pause_protocol/_maybe_resume_protocol flow-control signals touch
no state read here and are noted in comments. -/

/-- Result of an IOChannel.write_chars call: wrote n bytes, raised
BlockingIOError/InterruptedError, or raised some other fatal
exception. -/
inductive WriteOutcome where
  | wrote (n : Nat)
  | wouldBlock
  | fatal
  deriving DecidableEq, Repr

/-- Callbacks placed on the loop with call_soon by the transport:
protocol.connection_made, the waiter wake-up, and
_call_connection_lost(exc) (hasExc records whether exc was None). -/
inductive PendingCall where
  | connectionMade
  | wakeWaiter
  | callConnectionLost (hasExc : Bool)
  deriving DecidableEq, Repr

/-- Attributes of a _GLibWritePipeTransport: _conn_lost, _closing,
_buffer, _watch_source (a GLib source id or None), whether _io is
still set, and whether _protocol is still set (both are cleared by
_call_connection_lost). -/
structure WriteTransport where
  connLost : Nat
  closing : Bool
  buffer : List Nat
  watchSource : Option Nat
  ioOpen : Bool
  protocolSet : Bool
  deriving DecidableEq, Repr

/-- A write transport together with its loop environment: the pending
call_soon queue, the count of protocol.connection_lost deliveries, the
GLib fresh-id counter and the live GLib watch sources. -/
structure TransportSys where
  t : WriteTransport
  pending : List PendingCall
  delivered : Nat
  nextId : Nat
  hostWatches : List Nat
  deriving DecidableEq, Repr

/-- _GLibBasePipeTransport._remove_watch (lines 177-180): if
_watch_source is truthy, GLib.source_remove it and clear it. -/
def wtRemoveWatch (sys : TransportSys) : TransportSys :=
  match sys.t.watchSource with
  | some i =>
    { sys with t := { sys.t with watchSource := none },
               hostWatches := sys.hostWatches.filter (fun j => j != i) }
  | none => sys

/-- _GLibBasePipeTransport._call_connection_lost (lines 214-223):
calls protocol.connection_lost(exc) (an AttributeError if _protocol
was already cleared), and in the finally block sets _closing, removes
the watch, shuts the IOChannel down and clears _io, _protocol and
_loop. -/
def callConnectionLost (sys : TransportSys) (hasExc : Bool) :
    TransportSys × Except PyErr Unit :=
  let res : Except PyErr Unit :=
    if sys.t.protocolSet then .ok () else .error .attributeError
  let delivered := if sys.t.protocolSet then sys.delivered + 1 else sys.delivered
  let sys1 := wtRemoveWatch sys
  ({ sys1 with
      t := { sys1.t with closing := true, ioOpen := false, protocolSet := false },
      delivered := delivered },
   res)

/-- _GLibBasePipeTransport._close (lines 207-212): early-returns if
already _closing; otherwise sets _closing, removes the watch, and
schedules _call_connection_lost(exc) with call_soon. -/
def baseClose (sys : TransportSys) (hasExc : Bool) : TransportSys :=
  if sys.t.closing then sys
  else
    let sys1 := wtRemoveWatch sys
    { sys1 with t := { sys1.t with closing := true },
                pending := sys1.pending ++ [.callConnectionLost hasExc] }

/-- _GLibWritePipeTransport._close (lines 303-305): clears the buffer,
then the base-class _close. -/
def wtClose (sys : TransportSys) (hasExc : Bool) : TransportSys :=
  baseClose { sys with t := { sys.t with buffer := [] } } hasExc

/-- _GLibBasePipeTransport._fatal_error (lines 193-205) with debug off:
logging and call_exception_handler have no transport-visible effect, so
the observable behaviour is self._close(exc), which for the write
transport is _GLibWritePipeTransport._close. -/
def wtFatalError (sys : TransportSys) : TransportSys :=
  wtClose sys true

/-- _GLibBasePipeTransport.abort (lines 174-175): self._close(None). -/
def wtAbort (sys : TransportSys) : TransportSys :=
  wtClose sys false

/-- _GLibWritePipeTransport.write_eof (lines 310-316): early-returns if
_closing; otherwise sets _closing and, when the buffer is empty,
schedules _call_connection_lost(None). -/
def wtWriteEof (sys : TransportSys) : TransportSys :=
  if sys.t.closing then sys
  else if sys.t.buffer = [] then
    { sys with t := { sys.t with closing := true },
               pending := sys.pending ++ [.callConnectionLost false] }
  else { sys with t := { sys.t with closing := true } }

/-- _GLibWritePipeTransport.close (lines 298-301): write_eof when _io
is still set and not already closing. -/
def wtCloseMethod (sys : TransportSys) : TransportSys :=
  if sys.t.ioOpen && !sys.t.closing then wtWriteEof sys else sys

/-- _GLibWritePipeTransport.write (lines 234-270): empty data is a
no-op; when _conn_lost or _closing, the code first evaluates
"self._conn_lost >= constants.LOG_THRESHOLD_FOR_CONNLOST_WRITES", and
the module never binds the name constants, so that line raises
NameError before the dropped-write counter self._conn_lost += 1 is
reached; otherwise, with an empty buffer it attempts one
write_chars (a full write returns, a partial or would-block result
registers a write-watch and buffers the rest, another exception bumps
_conn_lost and goes through _fatal_error), and with a non-empty buffer
it appends (the diagnostic print and _maybe_pause_protocol touch no
state read here). -/
def wtWrite (sys : TransportSys) (data : List Nat) (outcome : WriteOutcome) :
    TransportSys × Except PyErr Unit :=
  if data = [] then (sys, .ok ())
  else if sys.t.connLost ≠ 0 ∨ sys.t.closing then
    if geventsGlobalBound "constants" then
      ({ sys with t := { sys.t with connLost := sys.t.connLost + 1 } }, .ok ())
    else (sys, .error .nameError)
  else if sys.t.buffer = [] then
    match outcome with
    | .wrote n =>
      if n = data.length then (sys, .ok ())
      else
        let rest := data.drop n
        ({ sys with
            t := { sys.t with watchSource := some sys.nextId,
                              buffer := sys.t.buffer ++ rest },
            nextId := sys.nextId + 1,
            hostWatches := sys.nextId :: sys.hostWatches }, .ok ())
    | .wouldBlock =>
      ({ sys with
          t := { sys.t with watchSource := some sys.nextId,
                            buffer := sys.t.buffer ++ data },
          nextId := sys.nextId + 1,
          hostWatches := sys.nextId :: sys.hostWatches }, .ok ())
    | .fatal =>
      let sys1 := { sys with t := { sys.t with connLost := sys.t.connLost + 1 } }
      (wtFatalError sys1, .ok ())
  else ({ sys with t := { sys.t with buffer := sys.t.buffer ++ data } }, .ok ())

/-- _GLibBasePipeTransport._do_channel_errors (lines 182-191): on ERR,
_fatal_error(None) then remove the watch and shut the channel down,
reporting handled; on HUP, _call_connection_lost(None) directly,
reporting handled; otherwise not handled. -/
def wtDoChannelErrors (sys : TransportSys) (condition : Nat) :
    TransportSys × Bool × Except PyErr Unit :=
  if condition &&& G_IO_ERR ≠ 0 then
    let s1 := wtRemoveWatch (wtClose sys false)
    ({ s1 with t := { s1.t with ioOpen := false } }, true, .ok ())
  else if condition &&& G_IO_HUP ≠ 0 then
    let (s1, res) := callConnectionLost sys false
    (s1, true, res)
  else (sys, false, .ok ())

/-- _GLibWritePipeTransport._write_ready (lines 272-296): asserts the
buffer is non-empty, handles channel error conditions, then tries to
flush: would-block does nothing, a fatal exception clears the buffer,
bumps _conn_lost and goes through _fatal_error, a full flush clears
the buffer, removes the watch, signals _maybe_resume_protocol (no
state read here) and, if _closing, calls _call_connection_lost(None)
directly; a partial flush drops the written prefix. -/
def wtWriteReady (sys : TransportSys) (condition : Nat) (outcome : WriteOutcome) :
    TransportSys × Except PyErr Unit :=
  if sys.t.buffer = [] then (sys, .error .assertionError)
  else
    match wtDoChannelErrors sys condition with
    | (s1, true, res) => (s1, res)
    | (_, false, _) =>
      match outcome with
      | .wouldBlock => (sys, .ok ())
      | .fatal =>
        let sys1 := { sys with t := { sys.t with buffer := [],
                                                 connLost := sys.t.connLost + 1 } }
        (wtFatalError sys1, .ok ())
      | .wrote n =>
        if n = sys.t.buffer.length then
          let sys1 := wtRemoveWatch { sys with t := { sys.t with buffer := [] } }
          if sys1.t.closing then callConnectionLost sys1 false
          else (sys1, .ok ())
        else if n > 0 then
          ({ sys with t := { sys.t with buffer := sys.t.buffer.drop n } }, .ok ())
        else (sys, .ok ())

/-- The transport right after _GLibWritePipeTransport.__init__ with a
waiter (lines 136-158, 226-229): clean flags, empty buffer, no watch,
and connection_made plus the waiter wake-up queued with call_soon. -/
def wtStart : TransportSys :=
  { t := { connLost := 0, closing := false, buffer := [], watchSource := none,
           ioOpen := true, protocolSet := true },
    pending := [.connectionMade, .wakeWaiter],
    delivered := 0, nextId := 1, hostWatches := [] }

/-- Run the loop's pending call_soon queue in FIFO order.  Only
_call_connection_lost has effects modelled here, and it never enqueues
further calls. -/
def runPendingList : List PendingCall → TransportSys → TransportSys
  | [], sys => sys
  | c :: rest, sys =>
    runPendingList rest
      (match c with
       | .connectionMade => sys
       | .wakeWaiter => sys
       | .callConnectionLost hasExc => (callConnectionLost sys hasExc).1)

/-- Drain every pending call_soon callback of the system. -/
def drainPending (sys : TransportSys) : TransportSys :=
  runPendingList sys.pending { sys with pending := [] }

/-- Claim C4 evaluated on the code: for a transport marked closing (via
write_eof) or with _conn_lost set, a write of non-empty data raises
NameError (the guard line references the never-imported name
constants) instead of counting a dropped write: the state is unchanged
and _conn_lost is not incremented. -/
theorem c4_write_after_loss_raises :
    (wtWrite (wtWriteEof wtStart) [120] WriteOutcome.wouldBlock).2 = .error .nameError ∧
    (wtWrite (wtWriteEof wtStart) [120] WriteOutcome.wouldBlock).1 = wtWriteEof wtStart ∧
    (wtWriteEof wtStart).t.closing = true ∧
    (wtWrite (wtWriteEof wtStart) [120] WriteOutcome.wouldBlock).1.t.connLost = 0 ∧
    (wtWrite { wtStart with t := { wtStart.t with connLost := 1 } }
        [7] WriteOutcome.wouldBlock).2 = .error .nameError :=
  ⟨rfl, rfl, rfl, rfl, rfl⟩

/-- Claim C8 evaluated on the code: after a blocked write (non-empty
buffer, write-watch registered), write_eof marks the transport closing
without scheduling connection_lost, and a subsequent abort (the same
happens for a fatal write error) hits the early return in _close, so
connection_lost is never scheduled nor delivered — zero deliveries
instead of exactly one — and the write-watch is never removed. -/
theorem c8_connection_lost_never_delivered :
    (drainPending (wtAbort (wtWriteEof (wtWrite wtStart [1, 2] WriteOutcome.wouldBlock).1))).delivered = 0 ∧
    (PendingCall.callConnectionLost true ∉
      (wtAbort (wtWriteEof (wtWrite wtStart [1, 2] WriteOutcome.wouldBlock).1)).pending) ∧
    (PendingCall.callConnectionLost false ∉
      (wtAbort (wtWriteEof (wtWrite wtStart [1, 2] WriteOutcome.wouldBlock).1)).pending) ∧
    (wtAbort (wtWriteEof (wtWrite wtStart [1, 2] WriteOutcome.wouldBlock).1)).t.closing = true ∧
    (wtAbort (wtWriteEof (wtWrite wtStart [1, 2] WriteOutcome.wouldBlock).1)).t.watchSource = some 1 ∧
    (wtAbort (wtWriteEof (wtWrite wtStart [1, 2] WriteOutcome.wouldBlock).1)).hostWatches = [1] := by
  decide
